import Mathlib

/-!
# Camera sample (`src/Camera/main.c`): state machine, dispatcher, capture bridge

A shallow embedding of the C program.  The process-wide variables of the file
become one record (`Globals`) that every handler receives and returns.  Calls
into the platform libraries are recorded, in program order, as a list of
`Call`s; what those calls hand back to the program (return codes, values
stored through out-pointers) is an explicit input of the embedded function.
Diagnostic output written with `fprintf(stderr, ...)` is not recorded.
-/

namespace Camera

/-- The `state_t` enumeration (main.c, lines 27-31). -/
inductive state_t where
  | STATE_STARTUP
  | STATE_VIEWFINDER
  | STATE_TAKINGPHOTO
  deriving DecidableEq, Repr

/-- Constants that main.c takes from the platform headers, together with the
values returned by `navigator_get_domain()` and `screen_get_domain()`.  They
are parameters of the development.  `switch_labels` records that the two
`case` labels of the `switch` in `handle_screen_event` are different integers,
which the C language requires of every `switch`. -/
structure Platform where
  SCREEN_EVENT_MTOUCH_TOUCH : Int
  SCREEN_EVENT_CREATE : Int
  NAVIGATOR_EXIT : Int
  CAMERA_EOK : Int
  EOK : Int
  CAMERA_FRAMETYPE_JPEG : Int
  CAMERA_HANDLE_INVALID : Int
  CAMERA_UNIT_FRONT : Int
  CAMERA_UNIT_REAR : Int
  EAGAIN : Int
  EINTR : Int
  navigator_domain : Int
  screen_domain : Int
  switch_labels : SCREEN_EVENT_MTOUCH_TOUCH ≠ SCREEN_EVENT_CREATE

/-- One admissible assignment of the platform constants, used wherever the
program is evaluated on a concrete input. -/
def sample_platform : Platform where
  SCREEN_EVENT_MTOUCH_TOUCH := 100
  SCREEN_EVENT_CREATE := 1
  NAVIGATOR_EXIT := 2
  CAMERA_EOK := 0
  EOK := 0
  CAMERA_FRAMETYPE_JPEG := 4
  CAMERA_HANDLE_INVALID := -1
  CAMERA_UNIT_FRONT := 1
  CAMERA_UNIT_REAR := 2
  EAGAIN := 11
  EINTR := 4
  navigator_domain := 7
  screen_domain := 8
  switch_labels := by decide

/-- The file-scope variables of main.c (lines 34-42). -/
structure Globals where
  shutdown : Bool
  screen_ctx : Int
  state : state_t
  handle : Int
  shouldmirror : Bool
  touch : Bool
  photo_done_domain : Int
  main_bps_chid : Int
  deriving DecidableEq, Repr

/-- The initialisers of the file-scope variables. -/
def initial_globals (P : Platform) : Globals where
  shutdown := false
  screen_ctx := 0
  state := state_t.STATE_STARTUP
  handle := P.CAMERA_HANDLE_INVALID
  shouldmirror := false
  touch := false
  photo_done_domain := -1
  main_bps_chid := -1

/-- Window properties written by the program. -/
inductive WinProp where
  | SCREEN_PROPERTY_MIRROR
  | SCREEN_PROPERTY_VISIBLE
  | SCREEN_PROPERTY_USAGE
  deriving DecidableEq, Repr

/-- Calls into the platform libraries, with the arguments that matter. -/
inductive Call where
  | screen_create_context
  | screen_create_window
  | screen_create_window_group
  | screen_set_window_property_iv (win : Int) (prop : WinProp) (val : Int)
  | screen_create_window_buffers
  | screen_get_window_property_pv
  | screen_get_window_property_iv
  | screen_fill
  | screen_post_window
  | bps_initialize
  | bps_channel_get_active
  | screen_request_events
  | navigator_request_events
  | bps_register_domain
  | screen_flush_context (ctx : Int)
  | soundplayer_play_sound
  | camera_open (unit : Int)
  | camera_set_photovf_property (handle : Int)
  | camera_start_photo_viewfinder (handle : Int)
  | camera_take_photo (handle : Int) (arg : Int)
  | camera_roll_open_photo (handle : Int)
  | write (fd : Int) (index : Int) (count : Nat)
  | close (fd : Int)
  | bps_event_create (domain : Int)
  | bps_channel_push_event (chid : Int)
  | camera_stop_photo_viewfinder (handle : Int)
  | camera_close (handle : Int)
  | screen_stop_events
  | bps_shutdown
  | screen_destroy_window
  | screen_destroy_context
  deriving DecidableEq, Repr

/-- What the program can read from one event of the platform queue:
`domain` is `bps_event_get_domain`, `code` is `bps_event_get_code`,
`screen_val` is the integer that `screen_get_event_property_iv` leaves in
`screen_val`, `window_rc` is the return value of
`screen_get_event_property_pv(..., SCREEN_PROPERTY_WINDOW, ...)` and `vf_win`
the window it stores. -/
structure bps_event_t where
  domain : Int
  code : Int
  screen_val : Int
  window_rc : Int
  vf_win : Int
  deriving DecidableEq, Repr

/-- `handle_screen_event` (main.c, lines 45-78). -/
def handle_screen_event (P : Platform) (g : Globals) (event : bps_event_t) :
    Globals × List Call :=
  if event.screen_val = P.SCREEN_EVENT_MTOUCH_TOUCH then
    ({ g with touch := true }, [])
  else if event.screen_val = P.SCREEN_EVENT_CREATE then
    if event.window_rc < 0 then
      (g, [])
    else
      let i : Int := if g.shouldmirror then 1 else 0
      ({ g with touch := false, state := state_t.STATE_VIEWFINDER },
        [Call.screen_set_window_property_iv event.vf_win WinProp.SCREEN_PROPERTY_MIRROR i,
         Call.screen_set_window_property_iv event.vf_win WinProp.SCREEN_PROPERTY_VISIBLE 1,
         Call.screen_flush_context g.screen_ctx])
  else
    (g, [])

/-- `handle_navigator_event` (main.c, lines 81-92). -/
def handle_navigator_event (P : Platform) (g : Globals) (event : bps_event_t) :
    Globals × List Call :=
  if event.code = P.NAVIGATOR_EXIT then
    ({ g with shutdown := true }, [])
  else
    (g, [])

/-- `handle_photo_done_event` (main.c, lines 95-101). -/
def handle_photo_done_event (g : Globals) (_event : bps_event_t) :
    Globals × List Call :=
  ({ g with touch := false, state := state_t.STATE_VIEWFINDER }, [])

/-- `handle_event` (main.c, lines 104-120).  The argument `fetched` is the
event pointer that `bps_get_event` stores: `none` is the null pointer. -/
def handle_event (P : Platform) (g : Globals) (fetched : Option bps_event_t) :
    Globals × List Call :=
  match fetched with
  | none => (g, [])
  | some event =>
    if event.domain = P.navigator_domain then
      handle_navigator_event P g event
    else if event.domain = P.screen_domain then
      handle_screen_event P g event
    else if event.domain = g.photo_done_domain then
      handle_photo_done_event g event
    else
      (g, [])

/-- `shutter_callback` (main.c, lines 123-129). -/
def shutter_callback (_handle : Int) (_arg : Int) : List Call :=
  [Call.soundplayer_play_sound]

/-- `run_state_machine` (main.c, lines 168-206).  `err` is the value that
`camera_take_photo` returns if the step calls it. -/
def run_state_machine (P : Platform) (g : Globals) (err : Int) :
    Globals × List Call :=
  match g.state with
  | state_t.STATE_STARTUP => (g, [])
  | state_t.STATE_VIEWFINDER =>
    if !g.touch then
      (g, [])
    else
      let g1 := { g with touch := false }
      let calls := [Call.camera_take_photo g1.handle g1.main_bps_chid]
      if err ≠ P.CAMERA_EOK then
        (g1, calls)
      else
        ({ g1 with state := state_t.STATE_TAKINGPHOTO }, calls)
  | state_t.STATE_TAKINGPHOTO => (g, [])

/-- The conversion to `int` written `(int)x` in the source: the value is
reduced to the 32-bit two's-complement range. -/
def toInt32 (x : Int) : Int :=
  (x + 2147483648) % 4294967296 - 2147483648

/-- The part of a `camera_buffer_t` that `still_callback` reads: the frame
type and `framedesc.jpeg.bufsize`, an unsigned 64-bit byte count (the source
prints it with `%lld` and converts it with `(int)`). -/
structure camera_buffer_t where
  frametype : Int
  bufsize : Nat
  deriving DecidableEq, Repr

/-- What one call of `write` meets: the descriptor takes up to `k` bytes of
what is offered, or the call fails and sets `errno`. -/
inductive WriteOutcome where
  | accepts (k : Nat)
  | fails (errno : Int)
  deriving DecidableEq, Repr

/-- Return value and `errno` of `write(fd, p, count)` under an outcome.  A
successful `write` never reports more bytes than `count`; a failed one
returns `-1`. -/
def sys_write (o : WriteOutcome) (count : Nat) : Int × Int :=
  match o with
  | WriteOutcome.accepts k => (toInt32 ((min k count : Nat) : Int), 0)
  | WriteOutcome.fails errno => (-1, errno)

/-- The third argument of the `write` call, `bufsize - index`: the
subtraction is done in the unsigned 64-bit type of `bufsize` and the result
is passed as a `size_t`, which has 32 bits on the target of the sample. -/
def write_count (bufsize : Nat) (index : Int) : Nat :=
  ((((bufsize : Int) - index) % 18446744073709551616) % 4294967296).toNat

/-- The `while` loop of `still_callback` (main.c, lines 144-154), started
with the local `index` at the given value.  Each iteration consumes one
scripted outcome of `write`.  The result is the final `index`, whether the
loop was left through `break` (a write error that is not retried), and the
`write` calls made; `none` means that the loop is still running when the
script is used up. -/
def write_loop (P : Platform) (fd : Int) (bufsize : Nat) :
    Int → List WriteOutcome → Option (Int × Bool × List Call)
  | index, [] =>
    if index < toInt32 (bufsize : Int) then none else some (index, false, [])
  | index, o :: rest =>
    if index < toInt32 (bufsize : Int) then
      let count := write_count bufsize index
      let call := Call.write fd index count
      let rc := (sys_write o count).1
      let errno := (sys_write o count).2
      if rc > 0 then
        (write_loop P fd bufsize (toInt32 (index + rc)) rest).map
          fun r => (r.1, r.2.1, call :: r.2.2)
      else if rc = -1 then
        if errno = P.EAGAIN ∨ errno = P.EINTR then
          (write_loop P fd bufsize index rest).map
            fun r => (r.1, r.2.1, call :: r.2.2)
        else
          some (index, true, [call])
      else
        (write_loop P fd bufsize index rest).map
          fun r => (r.1, r.2.1, call :: r.2.2)
    else
      some (index, false, [])

/-- `still_callback` (main.c, lines 132-166).  `handle` and `arg` are the
callback arguments, `roll_err` and `fd` what `camera_roll_open_photo`
returns and stores, `script` the outcomes of the `write` calls.  The result
is the list of platform calls made, or `none` when the write loop has not
ended within the script. -/
def still_callback (P : Platform) (g : Globals) (handle : Int)
    (buf : camera_buffer_t) (arg : Int) (roll_err : Int) (fd : Int)
    (script : List WriteOutcome) : Option (List Call) :=
  let saved : Option (List Call) :=
    if buf.frametype = P.CAMERA_FRAMETYPE_JPEG then
      if roll_err = P.CAMERA_EOK then
        (write_loop P fd buf.bufsize 0 script).map
          fun r => Call.camera_roll_open_photo handle :: (r.2.2 ++ [Call.close fd])
      else
        some [Call.camera_roll_open_photo handle]
    else
      some []
  saved.map fun calls =>
    calls ++ [Call.bps_event_create g.photo_done_domain, Call.bps_channel_push_event arg]

/-- Results of the three camera calls of `init_camera`: the return codes and
the value that `camera_open` leaves in `handle`. -/
structure InitOutcome where
  open_err : Int
  handle_out : Int
  setprop_err : Int
  start_err : Int
  deriving DecidableEq, Repr

/-- `init_camera` (main.c, lines 209-245): the return value, the globals and
the calls made. -/
def init_camera (P : Platform) (g : Globals) (unit : Int) (o : InitOutcome) :
    Int × Globals × List Call :=
  let g1 := { g with handle := o.handle_out }
  if o.open_err ≠ P.CAMERA_EOK then
    (o.open_err, g1, [Call.camera_open unit])
  else if o.setprop_err ≠ P.CAMERA_EOK then
    (o.setprop_err, { g1 with handle := P.CAMERA_HANDLE_INVALID },
      [Call.camera_open unit, Call.camera_set_photovf_property g1.handle,
       Call.camera_close g1.handle])
  else if o.start_err ≠ P.CAMERA_EOK then
    (o.start_err, { g1 with handle := P.CAMERA_HANDLE_INVALID },
      [Call.camera_open unit, Call.camera_set_photovf_property g1.handle,
       Call.camera_start_photo_viewfinder g1.handle, Call.camera_close g1.handle])
  else
    (0, (if unit = P.CAMERA_UNIT_FRONT then { g1 with shouldmirror := true } else g1),
      [Call.camera_open unit, Call.camera_set_photovf_property g1.handle,
       Call.camera_start_photo_viewfinder g1.handle])

/-- The `while (!shutdown)` loop of `main` (lines 284-288).  Each iteration
consumes one scripted pair: the result `camera_take_photo` would return and
the event `bps_get_event` delivers.  `none` means that the loop is still
running when the script is used up. -/
def main_loop (P : Platform) :
    Globals → List (Int × Option bps_event_t) → Option (Globals × List Call)
  | g, [] => if !g.shutdown then none else some (g, [])
  | g, it :: rest =>
    if !g.shutdown then
      let r1 := run_state_machine P g it.1
      let r2 := handle_event P r1.1 it.2
      (main_loop P r2.1 rest).map fun r => (r.1, r1.2 ++ r2.2 ++ r.2)
    else
      some (g, [])

/-- The statements of `main` between the loop and the bps clean-up
(lines 290-298). -/
def main_cleanup (g : Globals) : Globals × List Call :=
  let g1 := if g.state = state_t.STATE_TAKINGPHOTO then
      { g with state := state_t.STATE_VIEWFINDER } else g
  if g1.state = state_t.STATE_VIEWFINDER then
    (g1, [Call.camera_stop_photo_viewfinder g1.handle, Call.camera_close g1.handle])
  else
    (g1, [])

/-- Inputs of a run of `main`: the channel id from `bps_channel_get_active`,
the domain from `bps_register_domain`, the outcomes of the camera calls of
`init_camera`, and the script of the main loop. -/
structure MainInput where
  chid : Int
  domain : Int
  init : InitOutcome
  script : List (Int × Option bps_event_t)

/-- `main` (main.c, lines 248-307): exit code, final globals and the calls
made, or `none` when the main loop has not ended within the script.  The
application window and the usage constant, which main.c only passes on to the
screen library, are recorded as `0`. -/
def main (P : Platform) (inp : MainInput) : Option (Int × Globals × List Call) :=
  let g0 := initial_globals P
  let setup : List Call :=
    [Call.screen_create_context, Call.screen_create_window,
     Call.screen_create_window_group,
     Call.screen_set_window_property_iv 0 WinProp.SCREEN_PROPERTY_USAGE 0,
     Call.screen_create_window_buffers, Call.screen_get_window_property_pv,
     Call.screen_get_window_property_iv, Call.screen_fill, Call.screen_post_window,
     Call.bps_initialize, Call.bps_channel_get_active, Call.screen_request_events,
     Call.navigator_request_events, Call.bps_register_domain]
  let g1 := { g0 with main_bps_chid := inp.chid, photo_done_domain := inp.domain }
  let teardown : List Call :=
    [Call.screen_stop_events, Call.bps_shutdown, Call.screen_destroy_window,
     Call.screen_destroy_context]
  let ini := init_camera P g1 P.CAMERA_UNIT_REAR inp.init
  if ini.1 = P.EOK then
    (main_loop P ini.2.1 inp.script).map fun r =>
      let c := main_cleanup r.1
      (0, c.1, setup ++ ini.2.2 ++ r.2 ++ c.2 ++ teardown)
  else
    some (0, ini.2.1, setup ++ ini.2.2 ++ teardown)

/-- Number of `camera_take_photo` calls in a list of calls. -/
def capture_requests (calls : List Call) : Nat :=
  calls.countP fun c => match c with
    | Call.camera_take_photo _ _ => true
    | _ => false

/-- Number of `bps_channel_push_event` calls in a list of calls. -/
def pushed_events (calls : List Call) : Nat :=
  calls.countP fun c => match c with
    | Call.bps_channel_push_event _ => true
    | _ => false

/-- Number of `camera_roll_open_photo` and `write` calls in a list of calls. -/
def storage_calls (calls : List Call) : Nat :=
  calls.countP fun c => match c with
    | Call.camera_roll_open_photo _ => true
    | Call.write _ _ _ => true
    | _ => false

/-- Number of `camera_close` calls in a list of calls. -/
def close_calls (calls : List Call) : Nat :=
  calls.countP fun c => match c with
    | Call.camera_close _ => true
    | _ => false

/-- Number of `camera_stop_photo_viewfinder` calls in a list of calls. -/
def stop_calls (calls : List Call) : Nat :=
  calls.countP fun c => match c with
    | Call.camera_stop_photo_viewfinder _ => true
    | _ => false

/-- What the main thread does between two observations: one step of the state
machine (with the result `camera_take_photo` would return) or the dispatch of
one fetched event. -/
inductive Action where
  | tick (err : Int)
  | dispatch (fetched : Option bps_event_t)
  deriving DecidableEq, Repr

/-- One action applied to the globals. -/
def perform (P : Platform) (g : Globals) : Action → Globals × List Call
  | Action.tick err => run_state_machine P g err
  | Action.dispatch fetched => handle_event P g fetched

/-- Record of one performed action. -/
structure StepRecord where
  before : Globals
  action : Action
  calls : List Call
  after : Globals
  deriving DecidableEq, Repr

/-- The records of a sequence of actions performed from `g`, in order. -/
def run_log (P : Platform) : Globals → List Action → List StepRecord
  | _, [] => []
  | g, a :: rest =>
    (StepRecord.mk g a (perform P g a).2 (perform P g a).1) ::
      run_log P (perform P g a).1 rest

/-- The step moves the machine into `STATE_TAKINGPHOTO` from another state. -/
def enters_takingphoto (r : StepRecord) : Bool :=
  decide (r.before.state ≠ state_t.STATE_TAKINGPHOTO) &&
    decide (r.after.state = state_t.STATE_TAKINGPHOTO)

/-- Capture requests of a step that the backend accepted: the
`camera_take_photo` calls of a tick whose result is `CAMERA_EOK`. -/
def accepted_requests (P : Platform) (r : StepRecord) : Nat :=
  match r.action with
  | Action.tick err => if err = P.CAMERA_EOK then capture_requests r.calls else 0
  | Action.dispatch _ => 0

/-- The write loop in the words of the specification, over natural numbers:
`off` bytes are written so far; while `off < n`, `write` is called at offset
`off` with count `n - off`; a positive result is added to the offset, a
failure with `EAGAIN` or `EINTR` is retried at the same offset, any other
failure abandons the write. -/
def write_loop_spec (P : Platform) (fd : Int) (n : Nat) :
    Nat → List WriteOutcome → Option (Nat × Bool × List Call)
  | off, [] => if off < n then none else some (off, false, [])
  | off, o :: rest =>
    if off < n then
      let call := Call.write fd (off : Int) (n - off)
      match o with
      | WriteOutcome.accepts k =>
        (write_loop_spec P fd n (off + min k (n - off)) rest).map
          fun r => (r.1, r.2.1, call :: r.2.2)
      | WriteOutcome.fails errno =>
        if errno = P.EAGAIN ∨ errno = P.EINTR then
          (write_loop_spec P fd n off rest).map
            fun r => (r.1, r.2.1, call :: r.2.2)
        else
          some (off, true, [call])
    else
      some (off, false, [])

/-- Bytes that a scripted outcome offers to take: `k` for `accepts k`, none
for a failure. -/
def offered : WriteOutcome → Nat
  | WriteOutcome.accepts k => k
  | WriteOutcome.fails _ => 0

/-- A scripted outcome that makes the loop give up: a failure whose `errno`
is neither `EAGAIN` nor `EINTR`. -/
def abandons (P : Platform) : WriteOutcome → Bool
  | WriteOutcome.accepts _ => false
  | WriteOutcome.fails errno => !(decide (errno = P.EAGAIN) || decide (errno = P.EINTR))

/-! ## Dispatcher and state machine -/

/-- The dispatcher hands an event of the registered capture-complete domain,
when that domain is neither the navigator nor the screen domain, to
`handle_photo_done_event`. -/
theorem handle_event_photo_done (P : Platform) (g : Globals) (e : bps_event_t)
    (hn : e.domain ≠ P.navigator_domain) (hs : e.domain ≠ P.screen_domain)
    (hd : e.domain = g.photo_done_domain) :
    handle_event P g (some e) = handle_photo_done_event g e := by
  unfold handle_event
  simp only []
  rw [if_neg hn, if_neg hs, if_pos hd]

/-- The dispatcher hands an event of the screen domain, when that is not the
navigator domain, to `handle_screen_event`. -/
theorem handle_event_screen (P : Platform) (g : Globals) (e : bps_event_t)
    (hn : e.domain ≠ P.navigator_domain) (hs : e.domain = P.screen_domain) :
    handle_event P g (some e) = handle_screen_event P g e := by
  unfold handle_event
  simp only []
  rw [if_neg hn, if_pos hs]

/-- The dispatcher hands an event of the navigator domain to
`handle_navigator_event`. -/
theorem handle_event_navigator (P : Platform) (g : Globals) (e : bps_event_t)
    (hn : e.domain = P.navigator_domain) :
    handle_event P g (some e) = handle_navigator_event P g e := by
  unfold handle_event
  simp only []
  rw [if_pos hn]

/-- C1: from every state and touch value, handling a capture-complete event
gives state = Viewfinder and touch = false, and handling a second one right
after leaves all globals unchanged and makes no platform call.  This holds for
`handle_photo_done_event` itself and for `handle_event` on every event that
the dispatcher routes to it (domain equal to the registered capture-complete
domain and different from the navigator and screen domains). -/
theorem photo_done_forces_viewfinder_idempotent (P : Platform) (g : Globals)
    (e1 e2 : bps_event_t)
    (hn1 : e1.domain ≠ P.navigator_domain) (hs1 : e1.domain ≠ P.screen_domain)
    (hd1 : e1.domain = g.photo_done_domain)
    (hn2 : e2.domain ≠ P.navigator_domain) (hs2 : e2.domain ≠ P.screen_domain)
    (hd2 : e2.domain = g.photo_done_domain) :
    (handle_photo_done_event g e1).1.state = state_t.STATE_VIEWFINDER ∧
    (handle_photo_done_event g e1).1.touch = false ∧
    handle_photo_done_event (handle_photo_done_event g e1).1 e2
      = ((handle_photo_done_event g e1).1, []) ∧
    handle_event P g (some e1) = handle_photo_done_event g e1 ∧
    (handle_event P g (some e1)).1.state = state_t.STATE_VIEWFINDER ∧
    (handle_event P g (some e1)).1.touch = false ∧
    handle_event P (handle_event P g (some e1)).1 (some e2)
      = ((handle_event P g (some e1)).1, []) := by
  have hroute : handle_event P g (some e1) = handle_photo_done_event g e1 :=
    handle_event_photo_done P g e1 hn1 hs1 hd1
  refine ⟨rfl, rfl, rfl, hroute, ?_, ?_, ?_⟩
  · rw [hroute]; rfl
  · rw [hroute]; rfl
  · rw [hroute]
    exact handle_event_photo_done P (handle_photo_done_event g e1).1 e2 hn2 hs2 hd2

/-- Witness for C1: the machine is taking a photo with a touch recorded, and
two capture-complete events of the registered domain 9 arrive. -/
theorem photo_done_forces_viewfinder_idempotent_witness :
    (handle_event sample_platform
        { initial_globals sample_platform with
          state := state_t.STATE_TAKINGPHOTO, touch := true, photo_done_domain := 9 }
        (some ⟨9, 0, 0, 0, 0⟩)).1.state = state_t.STATE_VIEWFINDER ∧
    (handle_event sample_platform
        { initial_globals sample_platform with
          state := state_t.STATE_TAKINGPHOTO, touch := true, photo_done_domain := 9 }
        (some ⟨9, 0, 0, 0, 0⟩)).1.touch = false :=
  have h := photo_done_forces_viewfinder_idempotent sample_platform
    { initial_globals sample_platform with
      state := state_t.STATE_TAKINGPHOTO, touch := true, photo_done_domain := 9 }
    ⟨9, 0, 0, 0, 0⟩ ⟨9, 0, 0, 0, 0⟩
    (by decide) (by decide) (by decide) (by decide) (by decide) (by decide)
  ⟨h.2.2.2.2.1, h.2.2.2.2.2.1⟩

/-- C2 as stated fails: a surface-created event whose window lookup
(`screen_get_event_property_pv`) returns a negative value leaves the machine
in Startup, and with a touch recorded while taking a photo it leaves both
the state and the touch flag as they were. -/
theorem surface_created_lookup_failure_keeps_state :
    (⟨8, 0, 1, -1, 0⟩ : bps_event_t).screen_val = sample_platform.SCREEN_EVENT_CREATE ∧
    (handle_screen_event sample_platform (initial_globals sample_platform)
        ⟨8, 0, 1, -1, 0⟩).1.state = state_t.STATE_STARTUP ∧
    (handle_screen_event sample_platform
        { initial_globals sample_platform with
          state := state_t.STATE_TAKINGPHOTO, touch := true }
        ⟨8, 0, 1, -1, 0⟩).1.state = state_t.STATE_TAKINGPHOTO ∧
    (handle_screen_event sample_platform
        { initial_globals sample_platform with
          state := state_t.STATE_TAKINGPHOTO, touch := true }
        ⟨8, 0, 1, -1, 0⟩).1.touch = true := by
  decide

/-- C2, amended: for every prior state and touch value, a screen event of kind
surface-created whose window lookup succeeds (return value not negative)
leaves state = Viewfinder and touch = false, sets the mirror and visible
properties of the window and flushes the context; when the window lookup
fails, the globals are unchanged and no platform call is made. -/
theorem surface_created_forces_viewfinder (P : Platform) (g : Globals)
    (e : bps_event_t) (hk : e.screen_val = P.SCREEN_EVENT_CREATE) :
    (0 ≤ e.window_rc →
      (handle_screen_event P g e).1.state = state_t.STATE_VIEWFINDER ∧
      (handle_screen_event P g e).1.touch = false ∧
      (handle_screen_event P g e).2 =
        [Call.screen_set_window_property_iv e.vf_win WinProp.SCREEN_PROPERTY_MIRROR
            (if g.shouldmirror then 1 else 0),
         Call.screen_set_window_property_iv e.vf_win WinProp.SCREEN_PROPERTY_VISIBLE 1,
         Call.screen_flush_context g.screen_ctx]) ∧
    (e.window_rc < 0 → handle_screen_event P g e = (g, [])) := by
  have hne : ¬ P.SCREEN_EVENT_CREATE = P.SCREEN_EVENT_MTOUCH_TOUCH :=
    fun h => P.switch_labels h.symm
  constructor
  · intro hrc
    have hrc' : ¬ e.window_rc < 0 := not_lt.mpr hrc
    simp [handle_screen_event, hk, hne, hrc']
  · intro hrc
    simp [handle_screen_event, hk, hne, hrc]

/-- Witness for amended C2: surface-created with a successful window lookup,
received while a photo is being taken and a touch is recorded. -/
theorem surface_created_forces_viewfinder_witness :
    (handle_screen_event sample_platform
        { initial_globals sample_platform with
          state := state_t.STATE_TAKINGPHOTO, touch := true }
        ⟨8, 0, 1, 0, 42⟩).1.state = state_t.STATE_VIEWFINDER ∧
    (handle_screen_event sample_platform
        { initial_globals sample_platform with
          state := state_t.STATE_TAKINGPHOTO, touch := true }
        ⟨8, 0, 1, 0, 42⟩).1.touch = false :=
  have h := (surface_created_forces_viewfinder sample_platform
    { initial_globals sample_platform with
      state := state_t.STATE_TAKINGPHOTO, touch := true }
    ⟨8, 0, 1, 0, 42⟩ (by decide)).1 (by decide)
  ⟨h.1, h.2.1⟩

/-- C3: one step of `run_state_machine` follows the transition table.  In
Startup and in TakingPhoto the step changes nothing and makes no call; in
Viewfinder without a touch it changes nothing and makes no call; in
Viewfinder with a touch it clears the touch flag and makes exactly one
`camera_take_photo` call (with the camera handle and the main channel id),
ending in TakingPhoto when the call returns `CAMERA_EOK` and in Viewfinder,
touch cleared, otherwise. -/
theorem run_state_machine_transition_table (P : Platform) (g : Globals) (err : Int) :
    (g.state = state_t.STATE_STARTUP → run_state_machine P g err = (g, [])) ∧
    (g.state = state_t.STATE_TAKINGPHOTO → run_state_machine P g err = (g, [])) ∧
    (g.state = state_t.STATE_VIEWFINDER → g.touch = false →
      run_state_machine P g err = (g, [])) ∧
    (g.state = state_t.STATE_VIEWFINDER → g.touch = true → err = P.CAMERA_EOK →
      run_state_machine P g err =
        ({ g with touch := false, state := state_t.STATE_TAKINGPHOTO },
          [Call.camera_take_photo g.handle g.main_bps_chid])) ∧
    (g.state = state_t.STATE_VIEWFINDER → g.touch = true → err ≠ P.CAMERA_EOK →
      run_state_machine P g err =
        ({ g with touch := false }, [Call.camera_take_photo g.handle g.main_bps_chid])) ∧
    capture_requests (run_state_machine P g err).2 =
      (if g.state = state_t.STATE_VIEWFINDER ∧ g.touch = true then 1 else 0) := by
  refine ⟨?_, ?_, ?_, ?_, ?_, ?_⟩
  · intro hs; simp [run_state_machine, hs]
  · intro hs; simp [run_state_machine, hs]
  · intro hs ht; simp [run_state_machine, hs, ht]
  · intro hs ht he; simp [run_state_machine, hs, ht, he]
  · intro hs ht he; simp [run_state_machine, hs, ht, he]
  · cases hs : g.state <;> cases ht : g.touch <;>
      by_cases he : err = P.CAMERA_EOK <;>
      simp [run_state_machine, hs, ht, he, capture_requests]

/-- C5: the end-to-end scenario.  From state = Startup with touch = false,
dispatching a surface-created event (window lookup successful) gives
Viewfinder with touch = false; dispatching a touch event and running one tick
whose `camera_take_photo` returns `CAMERA_EOK` makes exactly one capture
request and gives TakingPhoto; dispatching a capture-complete event then
gives Viewfinder with touch = false. -/
theorem end_to_end_capture_scenario (P : Platform) (g : Globals)
    (created touched done : bps_event_t)
    (_hstate : g.state = state_t.STATE_STARTUP) (_htouch : g.touch = false)
    (hdom : P.screen_domain ≠ P.navigator_domain)
    (hc1 : created.domain = P.screen_domain)
    (hc2 : created.screen_val = P.SCREEN_EVENT_CREATE)
    (hc3 : 0 ≤ created.window_rc)
    (ht1 : touched.domain = P.screen_domain)
    (ht2 : touched.screen_val = P.SCREEN_EVENT_MTOUCH_TOUCH)
    (hd1 : done.domain = g.photo_done_domain)
    (hd2 : done.domain ≠ P.navigator_domain)
    (hd3 : done.domain ≠ P.screen_domain) :
    (handle_event P g (some created)).1.state = state_t.STATE_VIEWFINDER ∧
    (handle_event P g (some created)).1.touch = false ∧
    (run_state_machine P
        (handle_event P (handle_event P g (some created)).1 (some touched)).1
        P.CAMERA_EOK).2 = [Call.camera_take_photo g.handle g.main_bps_chid] ∧
    capture_requests (run_state_machine P
        (handle_event P (handle_event P g (some created)).1 (some touched)).1
        P.CAMERA_EOK).2 = 1 ∧
    (run_state_machine P
        (handle_event P (handle_event P g (some created)).1 (some touched)).1
        P.CAMERA_EOK).1.state = state_t.STATE_TAKINGPHOTO ∧
    (handle_event P (run_state_machine P
        (handle_event P (handle_event P g (some created)).1 (some touched)).1
        P.CAMERA_EOK).1 (some done)).1.state = state_t.STATE_VIEWFINDER ∧
    (handle_event P (run_state_machine P
        (handle_event P (handle_event P g (some created)).1 (some touched)).1
        P.CAMERA_EOK).1 (some done)).1.touch = false := by
  have hne : ¬ P.SCREEN_EVENT_CREATE = P.SCREEN_EVENT_MTOUCH_TOUCH :=
    fun h => P.switch_labels h.symm
  have hrc : ¬ created.window_rc < 0 := not_lt.mpr hc3
  have e1 : handle_event P g (some created) =
      ({ g with touch := false, state := state_t.STATE_VIEWFINDER },
        [Call.screen_set_window_property_iv created.vf_win WinProp.SCREEN_PROPERTY_MIRROR
            (if g.shouldmirror then 1 else 0),
         Call.screen_set_window_property_iv created.vf_win WinProp.SCREEN_PROPERTY_VISIBLE 1,
         Call.screen_flush_context g.screen_ctx]) := by
    rw [handle_event_screen P g created (hc1 ▸ hdom) hc1]
    simp [handle_screen_event, hc2, hne, hrc]
  have e2 : handle_event P { g with touch := false, state := state_t.STATE_VIEWFINDER }
      (some touched) = ({ g with touch := true, state := state_t.STATE_VIEWFINDER }, []) := by
    rw [handle_event_screen P _ touched (ht1 ▸ hdom) ht1]
    simp [handle_screen_event, ht2]
  have e3 : run_state_machine P { g with touch := true, state := state_t.STATE_VIEWFINDER }
      P.CAMERA_EOK = ({ g with touch := false, state := state_t.STATE_TAKINGPHOTO },
        [Call.camera_take_photo g.handle g.main_bps_chid]) := by
    simp [run_state_machine]
  have e4 : handle_event P { g with touch := false, state := state_t.STATE_TAKINGPHOTO }
      (some done) = ({ g with touch := false, state := state_t.STATE_VIEWFINDER }, []) := by
    exact handle_event_photo_done P
      { g with touch := false, state := state_t.STATE_TAKINGPHOTO } done hd2 hd3 hd1
  rw [e1]
  simp only [e2, e3, e4]
  simp [capture_requests]

/-- Witness for C5: the scenario on the sample platform, with the
capture-complete domain registered as 9. -/
theorem end_to_end_capture_scenario_witness :
    (handle_event sample_platform
      (run_state_machine sample_platform
        (handle_event sample_platform
          (handle_event sample_platform
            { initial_globals sample_platform with photo_done_domain := 9 }
            (some ⟨8, 0, 1, 0, 42⟩)).1
          (some ⟨8, 0, 100, 0, 0⟩)).1
        sample_platform.CAMERA_EOK).1
      (some ⟨9, 0, 0, 0, 0⟩)).1.state = state_t.STATE_VIEWFINDER :=
  (end_to_end_capture_scenario sample_platform
    { initial_globals sample_platform with photo_done_domain := 9 }
    ⟨8, 0, 1, 0, 42⟩ ⟨8, 0, 100, 0, 0⟩ ⟨9, 0, 0, 0, 0⟩
    rfl rfl (by decide) (by decide) (by decide) (by decide) (by decide) (by decide)
    (by decide) (by decide) (by decide)).2.2.2.2.2.1

/-- C6 as stated fails: a touch is delivered while a photo is being taken,
then the capture-complete event arrives; the tick that follows makes no
capture request and the machine stays in Viewfinder, because the
capture-complete handler has cleared the recorded touch. -/
theorem touch_during_capture_is_dropped :
    (handle_event sample_platform
        { initial_globals sample_platform with
          state := state_t.STATE_TAKINGPHOTO, photo_done_domain := 9 }
        (some ⟨8, 0, 100, 0, 0⟩)).1.touch = true ∧
    (handle_event sample_platform
        (handle_event sample_platform
          { initial_globals sample_platform with
            state := state_t.STATE_TAKINGPHOTO, photo_done_domain := 9 }
          (some ⟨8, 0, 100, 0, 0⟩)).1
        (some ⟨9, 0, 0, 0, 0⟩)).1.touch = false ∧
    capture_requests (run_state_machine sample_platform
        (handle_event sample_platform
          (handle_event sample_platform
            { initial_globals sample_platform with
              state := state_t.STATE_TAKINGPHOTO, photo_done_domain := 9 }
            (some ⟨8, 0, 100, 0, 0⟩)).1
          (some ⟨9, 0, 0, 0, 0⟩)).1
        sample_platform.CAMERA_EOK).2 = 0 ∧
    (run_state_machine sample_platform
        (handle_event sample_platform
          (handle_event sample_platform
            { initial_globals sample_platform with
              state := state_t.STATE_TAKINGPHOTO, photo_done_domain := 9 }
            (some ⟨8, 0, 100, 0, 0⟩)).1
          (some ⟨9, 0, 0, 0, 0⟩)).1
        sample_platform.CAMERA_EOK).1.state = state_t.STATE_VIEWFINDER := by
  decide

/-- C6, amended: a touch event delivered while state = TakingPhoto sets the
touch flag and leaves state = TakingPhoto; ticks in between change nothing
and make no call; the capture-complete event then gives state = Viewfinder
and clears the recorded touch, so the first tick after it makes no capture
request and leaves the machine in Viewfinder with touch = false. -/
theorem touch_during_capture_recorded_then_cleared (P : Platform) (g : Globals)
    (touched done : bps_event_t) (err1 err2 : Int)
    (hstate : g.state = state_t.STATE_TAKINGPHOTO)
    (hdom : P.screen_domain ≠ P.navigator_domain)
    (ht1 : touched.domain = P.screen_domain)
    (ht2 : touched.screen_val = P.SCREEN_EVENT_MTOUCH_TOUCH)
    (hd1 : done.domain = g.photo_done_domain)
    (hd2 : done.domain ≠ P.navigator_domain)
    (hd3 : done.domain ≠ P.screen_domain) :
    handle_event P g (some touched) = ({ g with touch := true }, []) ∧
    (handle_event P g (some touched)).1.state = state_t.STATE_TAKINGPHOTO ∧
    run_state_machine P (handle_event P g (some touched)).1 err1
      = ((handle_event P g (some touched)).1, []) ∧
    (handle_event P (handle_event P g (some touched)).1 (some done)).1.state
      = state_t.STATE_VIEWFINDER ∧
    (handle_event P (handle_event P g (some touched)).1 (some done)).1.touch = false ∧
    run_state_machine P
        (handle_event P (handle_event P g (some touched)).1 (some done)).1 err2
      = ((handle_event P (handle_event P g (some touched)).1 (some done)).1, []) := by
  have e1 : handle_event P g (some touched) = ({ g with touch := true }, []) := by
    rw [handle_event_screen P g touched (ht1 ▸ hdom) ht1]
    simp [handle_screen_event, ht2]
  have e2 : handle_event P { g with touch := true } (some done)
      = ({ g with touch := false, state := state_t.STATE_VIEWFINDER }, []) := by
    exact handle_event_photo_done P { g with touch := true } done hd2 hd3 hd1
  rw [e1]
  simp only [e2]
  simp [run_state_machine, hstate]

/-- Witness for amended C6 on the sample platform. -/
theorem touch_during_capture_recorded_then_cleared_witness :
    run_state_machine sample_platform
        (handle_event sample_platform
          (handle_event sample_platform
            { initial_globals sample_platform with
              state := state_t.STATE_TAKINGPHOTO, photo_done_domain := 9 }
            (some ⟨8, 0, 100, 0, 0⟩)).1
          (some ⟨9, 0, 0, 0, 0⟩)).1 0
      = ((handle_event sample_platform
          (handle_event sample_platform
            { initial_globals sample_platform with
              state := state_t.STATE_TAKINGPHOTO, photo_done_domain := 9 }
            (some ⟨8, 0, 100, 0, 0⟩)).1
          (some ⟨9, 0, 0, 0, 0⟩)).1, []) :=
  (touch_during_capture_recorded_then_cleared sample_platform
    { initial_globals sample_platform with
      state := state_t.STATE_TAKINGPHOTO, photo_done_domain := 9 }
    ⟨8, 0, 100, 0, 0⟩ ⟨9, 0, 0, 0, 0⟩ 0 0
    rfl (by decide) (by decide) (by decide) (by decide) (by decide)
    (by decide)).2.2.2.2.2

/-- C7: the shutdown flag after `handle_event` is true exactly when it was
true before or the fetched event is a navigator-domain event whose code is
`NAVIGATOR_EXIT`.  Hence every other event (other navigator codes, screen
events, capture-complete events, events of other domains, no event) leaves the
flag as it was, a flag that is set stays set, and a step of the state machine
never changes it. -/
theorem shutdown_set_only_by_navigator_exit (P : Platform) (g : Globals)
    (fetched : Option bps_event_t) (err : Int) :
    ((handle_event P g fetched).1.shutdown = true ↔
      (g.shutdown = true ∨
        ∃ e, fetched = some e ∧ e.domain = P.navigator_domain ∧
          e.code = P.NAVIGATOR_EXIT)) ∧
    ((¬ ∃ e, fetched = some e ∧ e.domain = P.navigator_domain ∧
          e.code = P.NAVIGATOR_EXIT) →
      (handle_event P g fetched).1.shutdown = g.shutdown) ∧
    (g.shutdown = true → (handle_event P g fetched).1.shutdown = true) ∧
    (run_state_machine P g err).1.shutdown = g.shutdown := by
  have hrun : (run_state_machine P g err).1.shutdown = g.shutdown := by
    unfold run_state_machine
    split
    · rfl
    · split
      · rfl
      · split <;> rfl
    · rfl
  have hscreen : ∀ e, (handle_screen_event P g e).1.shutdown = g.shutdown := by
    intro e
    unfold handle_screen_event
    split
    · rfl
    · split
      · split <;> rfl
      · rfl
  cases fetched with
  | none => simp [handle_event, hrun]
  | some e =>
    by_cases hn : e.domain = P.navigator_domain
    · rw [handle_event_navigator P g e hn]
      by_cases hx : e.code = P.NAVIGATOR_EXIT
      · simp [handle_navigator_event, hx, hn, hrun]
      · simp [handle_navigator_event, hx, hn, hrun]
    · by_cases hs : e.domain = P.screen_domain
      · rw [handle_event_screen P g e hn hs]
        simp [hscreen, hn, hrun]
      · have hrest : (handle_event P g (some e)).1.shutdown = g.shutdown := by
          unfold handle_event
          simp only []
          rw [if_neg hn, if_neg hs]
          split <;> rfl
        simp [hrest, hn, hrun]

/-! ## Interleavings of ticks and events -/

/-- Dispatching an event makes no capture request. -/
theorem handle_event_no_capture (P : Platform) (g : Globals)
    (fetched : Option bps_event_t) :
    capture_requests (handle_event P g fetched).2 = 0 := by
  unfold handle_event
  split
  · rfl
  · split
    · unfold handle_navigator_event
      split <;> rfl
    · split
      · unfold handle_screen_event
        split
        · rfl
        · split
          · split <;> rfl
          · rfl
      · split <;> rfl

/-- Dispatching an event never moves the machine into TakingPhoto. -/
theorem handle_event_not_entering (P : Platform) (g : Globals)
    (fetched : Option bps_event_t)
    (h : (handle_event P g fetched).1.state = state_t.STATE_TAKINGPHOTO) :
    g.state = state_t.STATE_TAKINGPHOTO := by
  unfold handle_event at h
  split at h
  · exact h
  · split at h
    · unfold handle_navigator_event at h
      split at h <;> exact h
    · split at h
      · unfold handle_screen_event at h
        split at h
        · exact h
        · split at h
          · split at h
            · exact h
            · simp at h
          · exact h
      · split at h
        · simp [handle_photo_done_event] at h
        · exact h

/-- What one action does to the capture count and to the state: a request is
made only by a tick in Viewfinder with a touch recorded, and then exactly
one; the action enters TakingPhoto exactly when it is such a tick and the
request is accepted. -/
theorem perform_capture_facts (P : Platform) (g : Globals) (a : Action) :
    (0 < capture_requests (perform P g a).2 →
      (∃ err, a = Action.tick err) ∧ g.state = state_t.STATE_VIEWFINDER ∧
        g.touch = true ∧ capture_requests (perform P g a).2 = 1) ∧
    (g.state = state_t.STATE_TAKINGPHOTO → capture_requests (perform P g a).2 = 0) ∧
    (if enters_takingphoto ⟨g, a, (perform P g a).2, (perform P g a).1⟩ = true
      then 1 else 0) =
      accepted_requests P ⟨g, a, (perform P g a).2, (perform P g a).1⟩ := by
  cases a with
  | dispatch fetched =>
    have h0 := handle_event_no_capture P g fetched
    have h1 := handle_event_not_entering P g fetched
    refine ⟨?_, ?_, ?_⟩
    · intro h; simp [perform, h0] at h
    · intro _; simpa [perform] using h0
    · by_cases hs : g.state = state_t.STATE_TAKINGPHOTO
      · simp [enters_takingphoto, accepted_requests, perform, hs]
      · have : ¬ (handle_event P g fetched).1.state = state_t.STATE_TAKINGPHOTO :=
          fun h => hs (h1 h)
        simp [enters_takingphoto, accepted_requests, perform, this]
  | tick err =>
    cases hs : g.state <;> cases ht : g.touch <;>
      by_cases he : err = P.CAMERA_EOK <;>
      simp [perform, run_state_machine, hs, ht, he, capture_requests,
        enters_takingphoto, accepted_requests]

/-- C4: along every finite interleaving of ticks and dispatched events, from
any starting globals (the initial ones among them): a step that makes a
capture request is a tick taken in Viewfinder with a touch recorded, and it
makes exactly one; no step taken in TakingPhoto makes a capture request; and
the number of steps that enter TakingPhoto equals the number of capture
requests that returned `CAMERA_EOK`. -/
theorem capture_only_from_viewfinder (P : Platform) (g : Globals) (acts : List Action) :
    (∀ r ∈ run_log P g acts, 0 < capture_requests r.calls →
      (∃ err, r.action = Action.tick err) ∧
        r.before.state = state_t.STATE_VIEWFINDER ∧ r.before.touch = true ∧
        capture_requests r.calls = 1) ∧
    (∀ r ∈ run_log P g acts, r.before.state = state_t.STATE_TAKINGPHOTO →
      capture_requests r.calls = 0) ∧
    (run_log P g acts).countP enters_takingphoto =
      ((run_log P g acts).map (accepted_requests P)).sum := by
  induction acts generalizing g with
  | nil => simp [run_log]
  | cons a rest ih =>
    obtain ⟨ih1, ih2, ih3⟩ := ih (perform P g a).1
    obtain ⟨f1, f2, f3⟩ := perform_capture_facts P g a
    refine ⟨?_, ?_, ?_⟩
    · intro r hr
      rw [run_log, List.mem_cons] at hr
      rcases hr with rfl | hr
      · exact f1
      · exact ih1 r hr
    · intro r hr
      rw [run_log, List.mem_cons] at hr
      rcases hr with rfl | hr
      · exact f2
      · exact ih2 r hr
    · rw [run_log, List.countP_cons, List.map_cons, List.sum_cons, ih3, ← f3]
      omega

/-! ## Shutdown path of `main` -/

/-- The clean-up after the main loop: ending in Viewfinder or in TakingPhoto
it stops the viewfinder and closes the camera handle, once each; ending in
Startup it makes no call at all. -/
theorem main_cleanup_cases (g : Globals) :
    (g.state = state_t.STATE_VIEWFINDER ∨ g.state = state_t.STATE_TAKINGPHOTO →
      (main_cleanup g).2 =
        [Call.camera_stop_photo_viewfinder g.handle, Call.camera_close g.handle]) ∧
    (g.state = state_t.STATE_STARTUP → (main_cleanup g).2 = []) := by
  cases hs : g.state <;> simp [main_cleanup, hs]

/-- C8, the code at the failing input: the camera is opened with handle 5,
the viewfinder is started, and the first event fetched is the navigator exit
event, so the loop ends in Startup.  The run opens the camera once and starts
the viewfinder once, and it never stops the viewfinder nor closes the handle,
which is still 5 when `main` returns. -/
theorem exit_in_startup_leaves_camera_open :
    main sample_platform ⟨1, 9, ⟨0, 5, 0, 0⟩, [(0, some ⟨7, 2, 0, 0, 0⟩)]⟩ =
      some (0,
        { shutdown := true, screen_ctx := 0, state := state_t.STATE_STARTUP, handle := 5,
          shouldmirror := false, touch := false, photo_done_domain := 9,
          main_bps_chid := 1 },
        [Call.screen_create_context, Call.screen_create_window,
         Call.screen_create_window_group,
         Call.screen_set_window_property_iv 0 WinProp.SCREEN_PROPERTY_USAGE 0,
         Call.screen_create_window_buffers, Call.screen_get_window_property_pv,
         Call.screen_get_window_property_iv, Call.screen_fill, Call.screen_post_window,
         Call.bps_initialize, Call.bps_channel_get_active, Call.screen_request_events,
         Call.navigator_request_events, Call.bps_register_domain,
         Call.camera_open 2, Call.camera_set_photovf_property 5,
         Call.camera_start_photo_viewfinder 5,
         Call.screen_stop_events, Call.bps_shutdown, Call.screen_destroy_window,
         Call.screen_destroy_context]) ∧
    ((main sample_platform ⟨1, 9, ⟨0, 5, 0, 0⟩, [(0, some ⟨7, 2, 0, 0, 0⟩)]⟩).map
      fun r => (stop_calls r.2.2, close_calls r.2.2)) = some (0, 0) := by
  decide

/-- A step of the state machine neither stops the viewfinder nor closes the
camera. -/
theorem run_state_machine_keeps_camera (P : Platform) (g : Globals) (err : Int) :
    close_calls (run_state_machine P g err).2 = 0 ∧
    stop_calls (run_state_machine P g err).2 = 0 := by
  cases hs : g.state <;> cases ht : g.touch <;>
    by_cases he : err = P.CAMERA_EOK <;>
    simp [run_state_machine, hs, ht, he, close_calls, stop_calls]

/-- Dispatching an event neither stops the viewfinder nor closes the camera. -/
theorem handle_event_keeps_camera (P : Platform) (g : Globals)
    (fetched : Option bps_event_t) :
    close_calls (handle_event P g fetched).2 = 0 ∧
    stop_calls (handle_event P g fetched).2 = 0 := by
  unfold handle_event
  split
  · exact ⟨rfl, rfl⟩
  · split
    · unfold handle_navigator_event
      split <;> exact ⟨rfl, rfl⟩
    · split
      · unfold handle_screen_event
        split
        · exact ⟨rfl, rfl⟩
        · split
          · split <;> exact ⟨rfl, rfl⟩
          · exact ⟨rfl, rfl⟩
      · split <;> exact ⟨rfl, rfl⟩

/-- The main loop neither stops the viewfinder nor closes the camera. -/
theorem main_loop_keeps_camera (P : Platform)
    (script : List (Int × Option bps_event_t)) :
    ∀ (g : Globals) (r : Globals × List Call), main_loop P g script = some r →
      close_calls r.2 = 0 ∧ stop_calls r.2 = 0 := by
  induction script with
  | nil =>
    intro g r h
    rw [main_loop] at h
    split at h
    · cases h
    · cases h; exact ⟨rfl, rfl⟩
  | cons it rest ih =>
    intro g r h
    rw [main_loop] at h
    split at h
    · simp only [] at h
      rw [Option.map_eq_some'] at h
      obtain ⟨r0, hr0, rfl⟩ := h
      obtain ⟨a, b⟩ := ih _ r0 hr0
      obtain ⟨c, d⟩ := run_state_machine_keeps_camera P g it.1
      obtain ⟨e, f⟩ := handle_event_keeps_camera P (run_state_machine P g it.1).1 it.2
      simp only [close_calls, stop_calls] at a b c d e f ⊢
      simp [List.countP_append, a, b, c, d, e, f]
    · cases h; exact ⟨rfl, rfl⟩

/-- Every finished run of `main` in which the three camera calls of
`init_camera` succeed: the viewfinder is stopped and the camera closed exactly
once when the loop ends in Viewfinder or TakingPhoto (the final state is then
Viewfinder), and neither happens when the loop ends in Startup. -/
theorem main_closes_unless_startup (P : Platform) (inp : MainInput)
    (r : Int × Globals × List Call) (hz : P.EOK = 0)
    (h1 : inp.init.open_err = P.CAMERA_EOK) (h2 : inp.init.setprop_err = P.CAMERA_EOK)
    (h3 : inp.init.start_err = P.CAMERA_EOK) (h : main P inp = some r) :
    close_calls r.2.2 = (if r.2.1.state = state_t.STATE_STARTUP then 0 else 1) ∧
    stop_calls r.2.2 = (if r.2.1.state = state_t.STATE_STARTUP then 0 else 1) := by
  unfold main at h
  simp only [init_camera, h1, h2, h3, ne_eq, not_true_eq_false, if_false, hz, if_true] at h
  rw [Option.map_eq_some'] at h
  obtain ⟨r0, hr0, rfl⟩ := h
  obtain ⟨a, b⟩ := main_loop_keeps_camera P inp.script _ r0 hr0
  simp only [close_calls, stop_calls] at a b ⊢
  cases hs : r0.1.state <;>
    simp [main_cleanup, hs, List.countP_append, List.countP_cons, a, b]

/-! ## The buffer-ready callback -/

/-- The write loop makes `write` calls only. -/
theorem write_loop_calls (P : Platform) (fd : Int) (bufsize : Nat)
    (script : List WriteOutcome) :
    ∀ (index : Int) (r : Int × Bool × List Call),
      write_loop P fd bufsize index script = some r →
      pushed_events r.2.2 = 0 ∧ ∀ c ∈ r.2.2, ∃ i k, c = Call.write fd i k := by
  induction script with
  | nil =>
    intro index r h
    rw [write_loop] at h
    split at h
    · cases h
    · cases h; simp [pushed_events]
  | cons o rest ih =>
    intro index r h
    have hstep : ∀ (j : Int) (call : Call) (hc : ∃ i k, call = Call.write fd i k),
        (write_loop P fd bufsize j rest).map (fun r => (r.1, r.2.1, call :: r.2.2))
          = some r →
        pushed_events r.2.2 = 0 ∧ ∀ c ∈ r.2.2, ∃ i k, c = Call.write fd i k := by
      intro j call hc hm
      rw [Option.map_eq_some'] at hm
      obtain ⟨r0, hr0, hr⟩ := hm
      obtain ⟨p0, w0⟩ := ih j r0 hr0
      obtain ⟨i, k, rfl⟩ := hc
      subst hr
      constructor
      · simpa [pushed_events] using p0
      · intro c hcm
        rcases List.mem_cons.mp hcm with rfl | hcm
        · exact ⟨i, k, rfl⟩
        · exact w0 c hcm
    rw [write_loop] at h
    split at h
    · simp only [] at h
      split at h
      · exact hstep _ _ ⟨_, _, rfl⟩ h
      · split at h
        · split at h
          · exact hstep _ _ ⟨_, _, rfl⟩ h
          · cases h
            simp [pushed_events]
        · exact hstep _ _ ⟨_, _, rfl⟩ h
    · cases h; simp [pushed_events]

/-- C9: whenever `still_callback` returns, its calls end with the creation of
one capture-complete event and one `bps_channel_push_event` on the channel
passed as `arg`, and that is the only push it makes; this holds whatever the
frame type, the result of the storage open and the outcomes of the writes.
When the frame type is not JPEG the callback always returns, and it opens no
storage slot and makes no write: its calls are exactly the event creation and
the push.  When the storage open fails the callback always returns too, and
with a JPEG buffer and an opened slot it returns exactly when the write loop
ends. -/
theorem still_callback_posts_exactly_once (P : Platform) (g : Globals) (handle : Int)
    (buf : camera_buffer_t) (arg : Int) (roll_err : Int) (fd : Int)
    (script : List WriteOutcome) :
    (∀ calls, still_callback P g handle buf arg roll_err fd script = some calls →
      pushed_events calls = 1 ∧
      calls.count (Call.bps_channel_push_event arg) = 1 ∧
      ∃ before, calls = before ++
        [Call.bps_event_create g.photo_done_domain, Call.bps_channel_push_event arg]) ∧
    (buf.frametype ≠ P.CAMERA_FRAMETYPE_JPEG →
      still_callback P g handle buf arg roll_err fd script =
        some [Call.bps_event_create g.photo_done_domain,
          Call.bps_channel_push_event arg] ∧
      storage_calls [Call.bps_event_create g.photo_done_domain,
          Call.bps_channel_push_event arg] = 0) ∧
    (buf.frametype = P.CAMERA_FRAMETYPE_JPEG → roll_err ≠ P.CAMERA_EOK →
      still_callback P g handle buf arg roll_err fd script =
        some [Call.camera_roll_open_photo handle,
          Call.bps_event_create g.photo_done_domain,
          Call.bps_channel_push_event arg]) ∧
    (buf.frametype = P.CAMERA_FRAMETYPE_JPEG → roll_err = P.CAMERA_EOK →
      (still_callback P g handle buf arg roll_err fd script).isSome =
        (write_loop P fd buf.bufsize 0 script).isSome) := by
  refine ⟨?_, ?_, ?_, ?_⟩
  · intro calls h
    unfold still_callback at h
    simp only [] at h
    rw [Option.map_eq_some'] at h
    obtain ⟨saved, hsaved, rfl⟩ := h
    have key : pushed_events saved = 0 := by
      split at hsaved
      · split at hsaved
        · rw [Option.map_eq_some'] at hsaved
          obtain ⟨r, hr, rfl⟩ := hsaved
          have := (write_loop_calls P fd buf.bufsize script 0 r hr).1
          simp only [pushed_events] at this ⊢
          simp [List.countP_cons, List.countP_append, this]
        · cases hsaved; simp [pushed_events]
      · cases hsaved; simp [pushed_events]
    have key2 : saved.count (Call.bps_channel_push_event arg) = 0 := by
      rw [List.count_eq_zero]
      intro hmem
      have hpos : 0 < pushed_events saved := by
        unfold pushed_events
        rw [List.countP_pos_iff]
        exact ⟨_, hmem, rfl⟩
      omega
    refine ⟨?_, ?_, saved, rfl⟩
    · simp only [pushed_events] at key ⊢
      simp [List.countP_append, key]
    · simp [List.count_append, key2]
  · intro hf
    simp [still_callback, hf, storage_calls]
  · intro hf hr
    simp [still_callback, hf, hr]
  · intro hf hr
    simp [still_callback, hf, hr]

/-- Witness for C9: a JPEG buffer of 10 bytes, storage open successful, a
partial write of 4 bytes and then a write error that is not retried. -/
theorem still_callback_posts_exactly_once_witness :
    pushed_events
      [Call.camera_roll_open_photo 5, Call.write 3 0 10, Call.write 3 4 6, Call.close 3,
       Call.bps_event_create (-1), Call.bps_channel_push_event 77] = 1 :=
  ((still_callback_posts_exactly_once sample_platform (initial_globals sample_platform)
    5 ⟨4, 10⟩ 77 0 3 [WriteOutcome.accepts 4, WriteOutcome.fails 5]).1
    [Call.camera_roll_open_photo 5, Call.write 3 0 10, Call.write 3 4 6, Call.close 3,
     Call.bps_event_create (-1), Call.bps_channel_push_event 77] (by decide)).1

/-! ## The write loop -/

/-- The `(int)` conversion keeps a value of the `int` range. -/
theorem toInt32_of_range (x : Int) (h0 : 0 ≤ x) (h1 : x < 2147483648) :
    toInt32 x = x := by
  unfold toInt32
  omega

/-- Below the length, the count passed to `write` is the remaining length. -/
theorem write_count_of_range (n off : Nat) (h : off ≤ n) (hn : n < 2147483648) :
    write_count n (off : Int) = n - off := by
  unfold write_count
  omega

/-- For a buffer length in the `int` range the source loop is the loop of the
specification, from every offset up to the length. -/
theorem write_loop_refines (P : Platform) (fd : Int) (n : Nat) (hn : n < 2147483648)
    (script : List WriteOutcome) :
    ∀ off : Nat, off ≤ n →
      write_loop P fd n (off : Int) script =
        (write_loop_spec P fd n off script).map fun r => ((r.1 : Int), r.2.1, r.2.2) := by
  have hb : toInt32 (n : Int) = n := toInt32_of_range _ (by omega) (by omega)
  induction script with
  | nil =>
    intro off _
    rw [write_loop, write_loop_spec, hb]
    by_cases h : off < n
    · have h' : (off : Int) < (n : Int) := by omega
      simp [h, h']
    · have h' : ¬ (off : Int) < (n : Int) := by omega
      simp [h, h']
  | cons o rest ih =>
    intro off hoff
    rw [write_loop, write_loop_spec, hb]
    by_cases h : off < n
    · have h' : (off : Int) < (n : Int) := by omega
      rw [if_pos h, if_pos h']
      simp only []
      rw [write_count_of_range n off hoff hn]
      cases o with
      | accepts k =>
        have hle : min k (n - off) ≤ n - off := Nat.min_le_right _ _
        simp only [sys_write]
        generalize min k (n - off) = m at hle ⊢
        rw [toInt32_of_range (m : Int) (by omega) (by omega)]
        by_cases hpos : 0 < m
        · have hpos' : (m : Int) > 0 := by omega
          rw [if_pos hpos']
          have hnext : toInt32 ((off : Int) + (m : Int)) = ((off + m : Nat) : Int) := by
            rw [toInt32_of_range _ (by omega) (by omega)]
            push_cast
            rfl
          rw [hnext, ih (off + m) (by omega)]
          rw [Option.map_map, Option.map_map]
          rfl
        · have hz : m = 0 := by omega
          subst hz
          have hpos' : ¬ ((0 : Nat) : Int) > 0 := by omega
          have hm1 : ¬ ((0 : Nat) : Int) = -1 := by omega
          rw [if_neg hpos', if_neg hm1, ih off hoff]
          rw [Option.map_map, Option.map_map]
          rfl
      | fails errno =>
        simp only [sys_write]
        have hneg : ¬ ((-1 : Int) > 0) := by omega
        rw [if_neg hneg, if_pos trivial]
        by_cases hr : errno = P.EAGAIN ∨ errno = P.EINTR
        · rw [if_pos hr, if_pos hr, ih off hoff]
          rw [Option.map_map, Option.map_map]
          rfl
        · rw [if_neg hr, if_neg hr]
          simp
    · have h' : ¬ (off : Int) < (n : Int) := by omega
      rw [if_neg h, if_neg h']
      simp

/-- Facts about a finished run of the specification loop: without a give-up
the offset has reached the length; a give-up comes from a scripted failure
that is not retried; every call is a `write` at an offset below the length
with the remaining length as count. -/
theorem write_loop_spec_result (P : Platform) (fd : Int) (n : Nat)
    (script : List WriteOutcome) :
    ∀ (off : Nat) (r : Nat × Bool × List Call), off ≤ n →
      write_loop_spec P fd n off script = some r →
      (r.2.1 = false → r.1 = n) ∧
      (r.2.1 = true → ∃ o ∈ script, abandons P o = true) ∧
      (∀ c ∈ r.2.2, ∃ at_ : Nat, off ≤ at_ ∧ at_ < n ∧
        c = Call.write fd (at_ : Int) (n - at_)) := by
  induction script with
  | nil =>
    intro off r hoff h
    rw [write_loop_spec] at h
    split at h
    · cases h
    · rename_i hge
      cases h
      refine ⟨fun _ => ?_, ?_, ?_⟩
      · show off = n
        omega
      · intro hc
        simp at hc
      · intro c hc
        simp at hc
  | cons o rest ih =>
    intro off r hoff h
    have hstep : ∀ off2 : Nat, off ≤ off2 → off2 ≤ n → off < n →
        (write_loop_spec P fd n off2 rest).map
          (fun r => (r.1, r.2.1, Call.write fd (off : Int) (n - off) :: r.2.2)) = some r →
        (r.2.1 = false → r.1 = n) ∧
        (r.2.1 = true → ∃ o2 ∈ o :: rest, abandons P o2 = true) ∧
        (∀ c ∈ r.2.2, ∃ at_ : Nat, off ≤ at_ ∧ at_ < n ∧
          c = Call.write fd (at_ : Int) (n - at_)) := by
      intro off2 h1 h2 hlt hm
      rw [Option.map_eq_some'] at hm
      obtain ⟨r0, hr0, rfl⟩ := hm
      obtain ⟨a, b, c⟩ := ih off2 r0 h2 hr0
      refine ⟨a, ?_, ?_⟩
      · intro hab
        obtain ⟨o2, ho2, hx⟩ := b hab
        exact ⟨o2, List.mem_cons_of_mem _ ho2, hx⟩
      · intro c0 hc0
        rcases List.mem_cons.mp hc0 with rfl | hc0
        · exact ⟨off, le_refl _, hlt, rfl⟩
        · obtain ⟨at_, h3, h4, h5⟩ := c c0 hc0
          exact ⟨at_, by omega, h4, h5⟩
    rw [write_loop_spec] at h
    split at h
    · rename_i hlt
      simp only [] at h
      split at h
      · exact hstep _ (by omega) (by omega) hlt h
      · rename_i errno
        split at h
        · exact hstep off (le_refl _) hoff hlt h
        · rename_i hr
          cases h
          refine ⟨?_, fun _ => ?_, ?_⟩
          · intro hc
            simp at hc
          · refine ⟨WriteOutcome.fails errno, List.mem_cons_self _ _, ?_⟩
            simpa [abandons, not_or] using hr
          · intro c hc
            have hc' : c = Call.write fd (off : Int) (n - off) := by simpa using hc
            exact ⟨off, le_refl _, hlt, hc'⟩
    · rename_i hge
      cases h
      refine ⟨fun _ => ?_, ?_, ?_⟩
      · show off = n
        omega
      · intro hc
        simp at hc
      · intro c hc
        simp at hc

/-- As long as every scripted outcome is a failure with `EAGAIN` or `EINTR`,
the specification loop below the length does not end. -/
theorem write_loop_spec_retry_only (P : Platform) (fd : Int) (n : Nat)
    (script : List WriteOutcome) (off : Nat) (hoff : off < n)
    (hs : ∀ o ∈ script, o = WriteOutcome.fails P.EAGAIN ∨ o = WriteOutcome.fails P.EINTR) :
    write_loop_spec P fd n off script = none := by
  induction script with
  | nil => rw [write_loop_spec]; simp [hoff]
  | cons o rest ih =>
    have hrest := ih (fun o2 ho2 => hs o2 (List.mem_cons_of_mem _ ho2))
    rw [write_loop_spec, if_pos hoff]
    rcases hs o (List.mem_cons_self _ _) with rfl | rfl
    · simp [hrest]
    · simp [hrest]

/-- The specification loop ends within the script when the script holds a
failure that is not retried, or offers at least the remaining length. -/
theorem write_loop_spec_ends (P : Platform) (fd : Int) (n : Nat)
    (script : List WriteOutcome) :
    ∀ off : Nat, off ≤ n →
      (n - off ≤ (script.map offered).sum ∨ ∃ o ∈ script, abandons P o = true) →
      (write_loop_spec P fd n off script).isSome = true := by
  induction script with
  | nil =>
    intro off hoff h
    rw [write_loop_spec]
    rcases h with h | ⟨o, ho, _⟩
    · have : ¬ off < n := by simp at h; omega
      simp [this]
    · cases ho
  | cons o rest ih =>
    intro off hoff h
    rw [write_loop_spec]
    by_cases hlt : off < n
    · rw [if_pos hlt]
      cases o with
      | accepts k =>
        simp only [Option.isSome_map']
        apply ih (off + min k (n - off)) (by omega)
        rcases h with h | ⟨o, ho, hx⟩
        · left
          simp only [List.map_cons, List.sum_cons, offered] at h
          omega
        · right
          rcases List.mem_cons.mp ho with rfl | ho
          · simp [abandons] at hx
          · exact ⟨o, ho, hx⟩
      | fails errno =>
        simp only []
        by_cases hr : errno = P.EAGAIN ∨ errno = P.EINTR
        · rw [if_pos hr]
          simp only [Option.isSome_map']
          apply ih off hoff
          rcases h with h | ⟨o, ho, hx⟩
          · left
            simpa [offered] using h
          · right
            rcases List.mem_cons.mp ho with rfl | ho
            · exfalso
              simp only [abandons, Bool.not_eq_true', Bool.or_eq_false_iff,
                decide_eq_false_iff_not] at hx
              exact hr.elim hx.1 hx.2
            · exact ⟨o, ho, hx⟩
        · rw [if_neg hr]; rfl
    · rw [if_neg hlt]; rfl

/-- C10 as stated fails for a length outside the `int` range: with
`bufsize` = 2^31 the loop condition `index < (int)bufsize` is false at once,
so the loop ends without any write error, without a `write` call, and with
0 bytes written instead of 2^31. -/
theorem write_loop_length_beyond_int :
    write_loop sample_platform 3 2147483648 0 [WriteOutcome.accepts 2147483648]
      = some (0, false, []) := by
  decide

/-- C10, amended: for every buffer length `n` below 2^31 and every script of
write outcomes, the loop of `still_callback` started at index 0 is the loop of
the specification: `write` is called at the number of bytes written so far
with the remaining length as count, a positive result is added to the
offset, a failure with `EAGAIN` or `EINTR` is retried at the same offset.
When the loop ends without giving up, exactly `n` bytes are written; it gives
up only on a scripted failure that is not retried; every call is a `write`
at an offset below `n` with count `n` minus the offset; a script of
retryable failures alone never ends the loop when `n` is positive; and the
loop does end once the script offers `n` bytes or holds a failure that is not
retried. -/
theorem write_loop_meets_spec (P : Platform) (fd : Int) (n : Nat)
    (hn : n < 2147483648) (script : List WriteOutcome) :
    write_loop P fd n 0 script =
      (write_loop_spec P fd n 0 script).map (fun r => ((r.1 : Int), r.2.1, r.2.2)) ∧
    (∀ r, write_loop P fd n 0 script = some r →
      (r.2.1 = false → r.1 = (n : Int)) ∧
      (r.2.1 = true → ∃ o ∈ script, abandons P o = true) ∧
      (∀ c ∈ r.2.2, ∃ at_ : Nat, at_ < n ∧ c = Call.write fd (at_ : Int) (n - at_))) ∧
    (0 < n →
      (∀ o ∈ script, o = WriteOutcome.fails P.EAGAIN ∨ o = WriteOutcome.fails P.EINTR) →
      write_loop P fd n 0 script = none) ∧
    ((n ≤ (script.map offered).sum ∨ ∃ o ∈ script, abandons P o = true) →
      (write_loop P fd n 0 script).isSome = true) := by
  have href := write_loop_refines P fd n hn script 0 (Nat.zero_le n)
  have href' : write_loop P fd n 0 script =
      (write_loop_spec P fd n 0 script).map (fun r => ((r.1 : Int), r.2.1, r.2.2)) := by
    simpa using href
  refine ⟨href', ?_, ?_, ?_⟩
  · intro r hr
    rw [href', Option.map_eq_some'] at hr
    obtain ⟨r0, hr0, rfl⟩ := hr
    obtain ⟨a, b, c⟩ := write_loop_spec_result P fd n script 0 r0 (Nat.zero_le n) hr0
    refine ⟨fun h => ?_, b, ?_⟩
    · have := a h
      simp [this]
    · intro c0 hc0
      obtain ⟨at_, _, h2, h3⟩ := c c0 hc0
      exact ⟨at_, h2, h3⟩
  · intro hpos hs
    rw [href', write_loop_spec_retry_only P fd n script 0 hpos hs]
    rfl
  · intro h
    rw [href', Option.isSome_map']
    exact write_loop_spec_ends P fd n script 0 (Nat.zero_le n) (by simpa using h)

/-- Witness for amended C10: 10 bytes, written as 4 bytes, a retried
`EAGAIN`, a retried `EINTR`, a write of 0 bytes and a final write of 6. -/
theorem write_loop_meets_spec_witness :
    write_loop sample_platform 3 10 0
        [WriteOutcome.accepts 4, WriteOutcome.fails 11, WriteOutcome.fails 4,
         WriteOutcome.accepts 0, WriteOutcome.accepts 100]
      = some (10, false,
          [Call.write 3 0 10, Call.write 3 4 6, Call.write 3 4 6, Call.write 3 4 6,
           Call.write 3 4 6]) :=
  (write_loop_meets_spec sample_platform 3 10 (by decide)
    [WriteOutcome.accepts 4, WriteOutcome.fails 11, WriteOutcome.fails 4,
     WriteOutcome.accepts 0, WriteOutcome.accepts 100]).1.trans (by decide)

end Camera
